import Mathlib

/-!
Shallow embedding of the flight-search pipeline of the chat-bot repository.

The embedding covers:
* the search-request builder (src/unnamed/part_003, function
  buildFlightOffersSearchRequest, and its helpers);
* the tool-parameter validation of the getFlightOffers tool
  (src/app/api/flight-assistant route, src/unnamed/part_000, lines 154-310);
* the retrying fetch client (src/unnamed/part_002, amadeusFetch and
  computeBackoffMs);
* the token cache (src/lib/services/amadeus-auth.ts, getAccessToken);
* the filter/sort/paginate engine (src/app/api/flight-offers-filter/route.ts,
  filterByStops / sortOffers / the GET pagination block, which coincide with
  filterFlightOffers in src/unnamed/part_002).

Conventions: JavaScript numbers that are used as integers are modelled as Nat
or Int; strings are Lean Strings; absent (undefined/null, and for optional
string fields also the falsy empty string) values are Option.none; fallible
steps return Except.  Host built-ins (Date parsing, parseFloat) are modelled
at the interface granularity stated in the corresponding doc comments.
-/

namespace ChatBot

/-- JS String.prototype.toUpperCase, restricted to the ASCII mapping used by
the IATA-code handling in the source. -/
def jsToUpper (s : String) : String := ⟨s.data.map Char.toUpper⟩

/-- JS String.prototype.slice(0, n) (used as departureDate.slice(0, 10)). -/
def jsSlice0 (s : String) (n : Nat) : String := ⟨s.data.take n⟩

/-! ## Data model (src/unnamed/part_005, the flight-booking types) -/

/-- Location (src/unnamed/part_005).  Only iataCode is ever read by the
builder; the remaining fields are carried verbatim. -/
structure Location where
  iataCode : String
  name : String := ""
  city : String := ""
  country : String := ""
deriving DecidableEq

/-- Passengers (src/unnamed/part_005). -/
structure Passengers where
  adults : Nat
  children : Nat
  infants : Nat
deriving DecidableEq

/-- TripSegment as consumed by the builder (src/unnamed/part_003).  The
builder filters segments through the JS truthiness of each field, so a field
that is undefined (or, for the date, the empty string) is modelled as none. -/
structure TripSegment where
  origin : Option Location
  destination : Option Location
  departureDate : Option String
deriving DecidableEq

/-- FlightSearchParams (src/unnamed/part_003, lines 21-32).  tripType is the
literal string union one-way / return / multi-trip; optional fields are
Option, where none also stands for a falsy empty string. -/
structure FlightSearchParams where
  tripType : String
  origin : Option Location := none
  destination : Option Location := none
  departureDate : Option String := none
  returnDate : Option String := none
  segments : Option (List TripSegment) := none
  passengers : Passengers
  travelClass : String
  currency : Option String := none
  maxOffers : Option Nat := none
deriving DecidableEq

/-- A traveler entry of the wire-format search request. -/
structure Traveler where
  id : String
  travelerType : String
  associatedAdultId : Option String := none
deriving DecidableEq

/-- An originDestinations entry of the wire-format search request;
departureDate stands for departureDateTimeRange.date. -/
structure OriginDestination where
  id : String
  originLocationCode : String
  destinationLocationCode : String
  departureDate : String
deriving DecidableEq

/-- A cabin restriction of searchCriteria.flightFilters. -/
structure CabinRestriction where
  cabin : String
  coverage : String
  originDestinationIds : List String
deriving DecidableEq

/-- The wire-format FlightOffersSearchRequest (src/unnamed/part_005), with
searchCriteria flattened into maxFlightOffers and cabinRestrictions. -/
structure FlightOffersSearchRequest where
  currencyCode : String
  originDestinations : List OriginDestination
  travelers : List Traveler
  sources : List String
  maxFlightOffers : Nat
  cabinRestrictions : List CabinRestriction
deriving DecidableEq

/-! ## Search request builder (src/unnamed/part_003, lines 34-118) -/

/-- The adultIds list accumulated by the first loop of
buildFlightOffersSearchRequest: the ids "1" .. toString a handed to adult
travelers. -/
def adultIdList (a : Nat) : List String :=
  (List.range a).map (fun i => toString (i + 1))

/-- The travelers list built by buildFlightOffersSearchRequest
(src/unnamed/part_003, lines 35-60): adults first with ids starting at "1",
then children, then infants; each infant is associated to
adultIds[i % adultIds.length].  For adults = 0 the JS index i % 0 is NaN and
the lookup yields undefined, which the Option-valued lookup reproduces
(out-of-range lookup on the empty list). -/
def buildTravelers (p : Passengers) : List Traveler :=
  ((List.range p.adults).map fun i =>
    { id := toString (i + 1), travelerType := "ADULT" })
  ++ ((List.range p.children).map fun i =>
    { id := toString (p.adults + i + 1), travelerType := "CHILD" })
  ++ ((List.range p.infants).map fun i =>
    { id := toString (p.adults + p.children + i + 1)
      travelerType := "HELD_INFANT"
      associatedAdultId := (adultIdList p.adults)[i % (adultIdList p.adults).length]? })

/-- The truthiness filter applied to a multi-trip segment
(src/unnamed/part_003, line 67): a segment passes iff origin, destination and
departureDate are all present; the passing payload is returned for the map
step. -/
def completeSegment (s : TripSegment) : Option (Location × Location × String) :=
  match s.origin, s.destination, s.departureDate with
  | some o, some d, some dd => some (o, d, dd)
  | _, _, _ => none

/-- The originDestinations list built by buildFlightOffersSearchRequest
(src/unnamed/part_003, lines 62-98): multi-trip maps the filtered segments
with 1-based ids; one-way produces a single entry when origin, destination
and departureDate are all truthy; return produces the outbound entry and the
swapped inbound entry when additionally returnDate is truthy; every other
case leaves the initial empty list. -/
def buildOriginDestinations (params : FlightSearchParams) : List OriginDestination :=
  if params.tripType = "multi-trip" then
    match params.segments with
    | some segs =>
      (segs.filterMap completeSegment).enum.map fun x =>
        { id := toString (x.1 + 1)
          originLocationCode := jsToUpper x.2.1.iataCode
          destinationLocationCode := jsToUpper x.2.2.1.iataCode
          departureDate := jsSlice0 x.2.2.2 10 }
    | none => []
  else if params.tripType = "one-way" then
    match params.origin, params.destination, params.departureDate with
    | some o, some d, some dd =>
      [{ id := "1"
         originLocationCode := jsToUpper o.iataCode
         destinationLocationCode := jsToUpper d.iataCode
         departureDate := jsSlice0 dd 10 }]
    | _, _, _ => []
  else if params.tripType = "return" then
    match params.origin, params.destination, params.departureDate, params.returnDate with
    | some o, some d, some dd, some rd =>
      [{ id := "1"
         originLocationCode := jsToUpper o.iataCode
         destinationLocationCode := jsToUpper d.iataCode
         departureDate := jsSlice0 dd 10 },
       { id := "2"
         originLocationCode := jsToUpper d.iataCode
         destinationLocationCode := jsToUpper o.iataCode
         departureDate := jsSlice0 rd 10 }]
    | _, _, _, _ => []
  else []

/-- buildFlightOffersSearchRequest (src/unnamed/part_003, lines 34-118).
currencyCode and maxFlightOffers use the JS || defaults, under which the
empty string and 0 also fall back to the default. -/
def buildFlightOffersSearchRequest (params : FlightSearchParams) : FlightOffersSearchRequest :=
  let travelers := buildTravelers params.passengers
  let originDestinations := buildOriginDestinations params
  { currencyCode :=
      match params.currency with
      | some c => if c = "" then "NGN" else c
      | none => "NGN"
    originDestinations := originDestinations
    travelers := travelers
    sources := ["GDS"]
    maxFlightOffers :=
      match params.maxOffers with
      | some n => if n = 0 then 50 else n
      | none => 50
    cabinRestrictions :=
      [{ cabin := params.travelClass
         coverage := "MOST_SEGMENTS"
         originDestinationIds := originDestinations.map (·.id) }] }

example :
    buildTravelers ⟨2, 1, 3⟩ =
      [{ id := "1", travelerType := "ADULT" },
       { id := "2", travelerType := "ADULT" },
       { id := "3", travelerType := "CHILD" },
       { id := "4", travelerType := "HELD_INFANT", associatedAdultId := some "1" },
       { id := "5", travelerType := "HELD_INFANT", associatedAdultId := some "2" },
       { id := "6", travelerType := "HELD_INFANT", associatedAdultId := some "1" }] := by
  decide

example :
    buildOriginDestinations
      { tripType := "return"
        origin := some { iataCode := "los" }
        destination := some { iataCode := "LHR" }
        departureDate := some "2026-12-01"
        returnDate := some "2026-12-20"
        passengers := ⟨1, 0, 0⟩
        travelClass := "ECONOMY" } =
      [⟨"1", "LOS", "LHR", "2026-12-01"⟩, ⟨"2", "LHR", "LOS", "2026-12-20"⟩] := by
  decide

/-! ## Retrying fetch client (src/unnamed/part_002, lines 1-81) -/

/-- isAuthError (src/unnamed/part_002, lines 5-7). -/
def isAuthError (status : Nat) : Bool := decide (status = 401 ∨ status = 403)

/-- isRetriableStatus (src/unnamed/part_002, lines 9-11). -/
def isRetriableStatus (status : Nat) : Bool :=
  decide (500 ≤ status ∨ status = 408 ∨ status = 429)

/-- Response.ok of the fetch API: a 2xx status. -/
def respOk (status : Nat) : Bool := decide (200 ≤ status ∧ status < 300)

/-- computeBackoffMs (src/unnamed/part_002, lines 13-21).  retryAfterSecs is
the numeric value of a present Retry-After header after the guard
Number(header) is not NaN and at least 0; a missing header, a falsy empty
header and a non-numeric or negative header are none and fall through to the
exponential schedule.  jitter stands for Math.floor(Math.random() * 150),
a value in [0, 149]. -/
def computeBackoffMs (attempt : Nat) (retryAfterSecs : Option Nat) (jitter : Nat) : Nat :=
  match retryAfterSecs with
  | some secs => min 5000 (max 500 (secs * 1000))
  | none => min 5000 (400 * 2 ^ attempt + jitter)

/-- What a single fetch attempt produced: a network error (the fetch promise
rejected, no response) or an HTTP response with the given status. -/
inductive FetchOutcome where
  | netErr : FetchOutcome
  | resp (status : Nat) : FetchOutcome
deriving DecidableEq

/-- How amadeusFetch finishes: it returns a response with the given status,
or the final network error propagates out of the loop (the throw on line 61
of src/unnamed/part_002). -/
inductive FetchResult where
  | returned (status : Nat) : FetchResult
  | thrown : FetchResult
deriving DecidableEq

/-- The retry loop of amadeusFetch (src/unnamed/part_002, lines 47-80) over a
given sequence of attempt outcomes.  fuel is the number of retries still
allowed (maxRetries minus the current attempt index), so fuel = 0 means
attempt = maxRetries: a network error is thrown and any response is returned
as-is.  With fuel left, a 2xx or 401/403 response returns immediately, a
retriable status retries, any other response returns, and a network error
retries. -/
def amadeusFetchGo (outcomes : Nat → FetchOutcome) : Nat → Nat → FetchResult
  | 0, attempt =>
    match outcomes attempt with
    | .netErr => .thrown
    | .resp s => .returned s
  | fuel + 1, attempt =>
    match outcomes attempt with
    | .netErr => amadeusFetchGo outcomes fuel (attempt + 1)
    | .resp s =>
      if respOk s then .returned s
      else if isAuthError s then .returned s
      else if isRetriableStatus s then amadeusFetchGo outcomes fuel (attempt + 1)
      else .returned s

/-- amadeusFetch (src/unnamed/part_002, lines 28-81) as a function of the
retry budget and the outcome of each attempt; attempt numbering starts at 0
and at most 1 + maxRetries attempts run. -/
def amadeusFetch (maxRetries : Nat) (outcomes : Nat → FetchOutcome) : FetchResult :=
  amadeusFetchGo outcomes maxRetries 0

/-- An attempt outcome that makes the loop try again when budget remains:
a network error, or a response with a retriable status. -/
def retriableOutcome : FetchOutcome → Bool
  | .netErr => true
  | .resp s => isRetriableStatus s

/-! ## Token cache (src/lib/services/amadeus-auth.ts, lines 22-67) -/

/-- The tokenCache module variable: token plus expiry in epoch milliseconds. -/
structure TokenCacheEntry where
  token : String
  expiresAt : Int
deriving DecidableEq

/-- The fields of the credential-exchange response that getAccessToken reads:
access_token and expires_in (seconds). -/
structure TokenResponse where
  accessToken : String
  expiresIn : Int
deriving DecidableEq

/-- getAccessToken (src/lib/services/amadeus-auth.ts, lines 27-67) on its
success path, as a state transition: given the current cache, the clock
(Date.now() in milliseconds) and the response a credential exchange would
deliver, it yields the returned token and the new cache.  The cached token is
returned unchanged exactly when expiresAt is more than 300000 ms (5 minutes)
past now; otherwise the exchange runs and the cache is replaced with the new
token expiring at now + expires_in * 1000. -/
def getAccessToken (cache : Option TokenCacheEntry) (now : Int)
    (fresh : TokenResponse) : String × Option TokenCacheEntry :=
  match cache with
  | some c =>
    if c.expiresAt > now + 300000 then (c.token, some c)
    else (fresh.accessToken, some ⟨fresh.accessToken, now + fresh.expiresIn * 1000⟩)
  | none => (fresh.accessToken, some ⟨fresh.accessToken, now + fresh.expiresIn * 1000⟩)

/-! ## getFlightOffers tool validation (src/unnamed/part_000, lines 134-310) -/

/-- A raw multi-trip segment as delivered by the tool schema
(src/unnamed/part_000, lines 142-146): three required strings. -/
structure RawSegment where
  origin : String
  destination : String
  departureDate : String
deriving DecidableEq

/-- The tool parameters of getFlightOffers (src/unnamed/part_000, lines
136-153) after schema decoding; defaults mirror the schema defaults. -/
structure GetFlightOffersParams where
  tripType : String
  origin : Option String := none
  destination : Option String := none
  departureDate : Option String := none
  returnDate : Option String := none
  segments : Option (List RawSegment) := none
  adults : Nat := 1
  children : Nat := 0
  infants : Nat := 0
  travelClass : String := "ECONOMY"
  currency : String := "NGN"
  maxOffers : Nat := 50
deriving DecidableEq

/-- The IATA test of the tool (src/unnamed/part_000, lines 175, 183, 226,
234): the regex ^[A-Z]\x7b3\x7d$ applied to the upper-cased code. -/
def isValidIata (s : String) : Bool :=
  (jsToUpper s).data.length = 3 &&
    (jsToUpper s).data.all (fun c => decide ('A' ≤ c ∧ c ≤ 'Z'))

/-- parseDate (src/unnamed/part_003, lines 11-19) delegates to the host Date
parser and reformats to YYYY-MM-DD.  It is modelled on strict YYYY-MM-DD
input strings, the format the tool schema requests: such a string parses iff
its digits are well placed and month and day are in range, and the normalized
result is the string itself.  Other host-specific date formats are outside
the model. -/
def isValidYMD (s : String) : Bool :=
  match s.data with
  | [y1, y2, y3, y4, '-', m1, m2, '-', d1, d2] =>
    [y1, y2, y3, y4, m1, m2, d1, d2].all (fun c => decide ('0' ≤ c ∧ c ≤ '9')) &&
      (let m := (m1.toNat - '0'.toNat) * 10 + (m2.toNat - '0'.toNat)
       let d := (d1.toNat - '0'.toNat) * 10 + (d2.toNat - '0'.toNat)
       decide (1 ≤ m ∧ m ≤ 12 ∧ 1 ≤ d ∧ d ≤ 31))
  | _ => false

/-- parseDate, on the modelled YYYY-MM-DD inputs (see isValidYMD). -/
def parseDate (s : String) : Option String :=
  if isValidYMD s then some s else none

/-- The per-segment validation loop of the multi-trip branch
(src/unnamed/part_000, lines 172-205): the first failing segment determines
the error; otherwise the segments become TripSegments with upper-cased codes
and parsed dates. -/
def validateSegments : List RawSegment → Except String (List TripSegment)
  | [] => .ok []
  | s :: rest =>
    if ¬ isValidIata s.origin then
      .error ("Invalid origin IATA code: " ++ s.origin ++ ". Use 3-letter codes like LOS, LON, NYC")
    else if ¬ isValidIata s.destination then
      .error ("Invalid destination IATA code: " ++ s.destination ++ ". Use 3-letter codes like LOS, LON, NYC")
    else
      match parseDate s.departureDate with
      | none => .error ("Invalid departure date: " ++ s.departureDate ++ ". Use YYYY-MM-DD format.")
      | some dd =>
        (validateSegments rest).map fun ts =>
          { origin := some { iataCode := jsToUpper s.origin }
            destination := some { iataCode := jsToUpper s.destination }
            departureDate := some dd } :: ts

/-- The validation performed by the getFlightOffers tool before any network
call, excluding the passenger counts, which the flow constructs up front
(src/unnamed/part_000, lines 157-161) and never checks: the tripType routing,
presence checks, IATA checks and date parsing of lines 163-282.  The result
carries everything of the assembled searchParams except passengers. -/
def validateCore (p : GetFlightOffersParams) :
    Except String (FlightSearchParams → FlightSearchParams) :=
  if p.tripType = "multi-trip" then
    match p.segments with
    | none =>
      .error "Multi-trip requires segments with origin, destination, and departure date for each leg"
    | some segs =>
      if segs.length = 0 then
        .error "Multi-trip requires segments with origin, destination, and departure date for each leg"
      else
        (validateSegments segs).map fun ts sp => { sp with segments := some ts }
  else
    match p.origin, p.destination, p.departureDate with
    | some o, some d, some dd =>
      if ¬ isValidIata o then
        .error ("Invalid origin IATA code: " ++ o ++ ". Use 3-letter codes like LOS, LON, NYC")
      else if ¬ isValidIata d then
        .error ("Invalid destination IATA code: " ++ d ++ ". Use 3-letter codes like LOS, LON, NYC")
      else
        match parseDate dd with
        | none => .error ("Invalid departure date: " ++ dd ++ ". Use YYYY-MM-DD format.")
        | some pdd =>
          if p.tripType = "return" then
            match p.returnDate with
            | none => .error "Return date is required for return trips."
            | some rd =>
              match parseDate rd with
              | none => .error ("Invalid return date: " ++ rd ++ ". Use YYYY-MM-DD format.")
              | some prd =>
                .ok fun sp =>
                  { sp with
                    origin := some { iataCode := jsToUpper o }
                    destination := some { iataCode := jsToUpper d }
                    departureDate := some pdd
                    returnDate := some prd }
          else
            .ok fun sp =>
              { sp with
                origin := some { iataCode := jsToUpper o }
                destination := some { iataCode := jsToUpper d }
                departureDate := some pdd }
    | _, _, _ =>
      .error "Origin, destination, and departure date are required for one-way and return trips"

/-- The searchParams value the tool hands to buildFlightOffersSearchRequest
when validation succeeds, or the validation error (src/unnamed/part_000,
lines 154-284); only after an ok outcome does the flow reach the network call
searchFlightOffers. -/
def validateGetFlightOffers (p : GetFlightOffersParams) :
    Except String FlightSearchParams :=
  (validateCore p).map fun assemble =>
    assemble
      { tripType := p.tripType
        passengers := ⟨p.adults, p.children, p.infants⟩
        travelClass := p.travelClass
        currency := some p.currency
        maxOffers := some p.maxOffers }

example :
    (validateGetFlightOffers
      { tripType := "one-way", origin := some "LOS", destination := some "LHR",
        departureDate := some "2026-12-01", adults := 1, infants := 4 }).isOk = true := by
  decide

example :
    validateGetFlightOffers
      { tripType := "return", origin := some "LOS",
        destination := some "LHR", departureDate := some "2026-12-01" } =
      .error "Return date is required for return trips." := by
  rfl

/-! ## Flight offers and the filter/sort/paginate engine
(src/app/api/flight-offers-filter/route.ts, coinciding with
filterFlightOffers in src/unnamed/part_002) -/

/-- A flight segment, restricted to the fields the engine reads.
departureAt models new Date(segment.departure.at).getTime(): the epoch
milliseconds the host Date parser assigns to the departure.at string
(0 for a falsy string, matching the || 0 fallback at the use site). -/
structure Segment where
  departureIata : String := ""
  departureAt : Int := 0
  carrierCode : String := ""
deriving DecidableEq

/-- An itinerary: optional ISO-8601 duration string plus segments. -/
structure Itinerary where
  duration : Option String := none
  segments : List Segment := []
deriving DecidableEq

/-- A price; total models parseFloat(price.total), the numeric value of the
price string. -/
structure Price where
  currency : String := ""
  total : ℚ := 0
deriving DecidableEq

/-- A flight offer, restricted to the fields the engine reads. -/
structure FlightOffer where
  itineraries : List Itinerary := []
  price : Price := {}
deriving DecidableEq

/-- The per-itinerary test of filterByStops
(src/app/api/flight-offers-filter/route.ts, lines 54-67): stop count is
segments.length - 1 (a JS number, hence Int: one fewer than the segment
count, -1 for an empty segment list), matched against the bucket; any other
filter string hits the default case and passes. -/
def stopsMatch (stopsFilter : String) (itin : Itinerary) : Bool :=
  let stopCount : Int := (itin.segments.length : Int) - 1
  if stopsFilter = "nonstop" then stopCount == 0
  else if stopsFilter = "1-stop" then stopCount == 1
  else if stopsFilter = "2+-stops" then decide (2 ≤ stopCount)
  else true

/-- filterByStops (src/app/api/flight-offers-filter/route.ts, lines 52-69):
keep an offer iff every itinerary matches the bucket. -/
def filterByStops (offers : List FlightOffer) (stopsFilter : String) : List FlightOffer :=
  offers.filter fun offer => offer.itineraries.all (stopsMatch stopsFilter)

/-- The scan of the PT duration token: the leftmost occurrence of "PT", as
found by the regex PT(?:(\d+)H)?(?:(\d+)M)? -, with the rest of the string
following it; none when "PT" does not occur (the regex fails to match). -/
def findPT : List Char → Option (List Char)
  | [] => none
  | 'P' :: 'T' :: rest => some rest
  | _ :: rest => findPT rest

/-- The numeric value of a digit run. -/
def digitsVal (cs : List Char) : Nat :=
  cs.foldl (fun n c => n * 10 + (c.toNat - '0'.toNat)) 0

/-- One optional regex group (\d+)H or (\d+)M: succeeds iff a nonempty digit
run immediately followed by the marker is present at the current position,
returning its value and the remainder; otherwise the group is skipped. -/
def parsePTGroup (cs : List Char) (marker : Char) : Option (Nat × List Char) :=
  let ds := cs.takeWhile (·.isDigit)
  match ds, cs.dropWhile (·.isDigit) with
  | _ :: _, c :: rest => if c = marker then some (digitsVal ds, rest) else none
  | _, _ => none

/-- The duration-in-minutes extraction shared by the fastest sort
(src/app/api/flight-offers-filter/route.ts, lines 13-23, and
src/unnamed/part_002, lines 306-315): match PT(?:(\d+)H)?(?:(\d+)M)? against
the duration string; no match contributes 0 (the reduce returns the running
total unchanged), an absent group counts 0, else hours * 60 + minutes. -/
def durationToMinutes (s : String) : Nat :=
  match findPT s.data with
  | none => 0
  | some rest =>
    let hoursStep :=
      match parsePTGroup rest 'H' with
      | some hr => hr
      | none => (0, rest)
    let minutes :=
      match parsePTGroup hoursStep.2 'M' with
      | some (m, _) => m
      | none => 0
    hoursStep.1 * 60 + minutes

/-- The fastest-sort key getDuration: the sum over all itineraries of the
parsed duration in minutes, with undefined duration read as the empty
string. -/
def getDuration (offer : FlightOffer) : Nat :=
  offer.itineraries.foldl
    (fun total itin => total + durationToMinutes (itin.duration.getD "")) 0

/-- The earliest-sort key: new Date of the first segment of the first
itinerary (departure.at), with the || 0 fallback when either list is empty
(new Date(0).getTime() = 0). -/
def firstDepartureAt (offer : FlightOffer) : Int :=
  match offer.itineraries with
  | [] => 0
  | itin :: _ =>
    match itin.segments with
    | [] => 0
    | sg :: _ => sg.departureAt

/-- sortOffers (src/app/api/flight-offers-filter/route.ts, lines 7-35).
Array.prototype.sort with a numeric key comparator is a stable sort by that
key; it is modelled by the stable insertionSort over the corresponding
non-strict key order.  Unknown sort keys hit the default case and leave the
list unchanged. -/
def sortOffers (offers : List FlightOffer) (sortBy : String) : List FlightOffer :=
  if sortBy = "cheapest" then
    List.insertionSort (fun a b => a.price.total ≤ b.price.total) offers
  else if sortBy = "fastest" then
    List.insertionSort (fun a b => getDuration a ≤ getDuration b) offers
  else if sortBy = "earliest" then
    List.insertionSort (fun a b => firstDepartureAt a ≤ firstDepartureAt b) offers
  else offers

/-- The pagination block of the GET route
(src/app/api/flight-offers-filter/route.ts, lines 129-134), identical in
shape to the filter tool (src/unnamed/part_000, lines 362-367): totalPages is
Math.ceil(total / limit) and the page is the slice
[(page - 1) * limit, page * limit).  Returns the page and totalPages. -/
def paginateOffers (offers : List FlightOffer) (page limit : Nat) :
    List FlightOffer × Nat :=
  let totalOffers := offers.length
  let totalPages := (totalOffers + limit - 1) / limit
  let startIndex := (page - 1) * limit
  ((offers.drop startIndex).take limit, totalPages)

example : durationToMinutes "PT5H30M" = 330 := by decide
example : durationToMinutes "PT45M" = 45 := by decide
example : durationToMinutes "PT7H" = 420 := by decide
example : durationToMinutes "7H30M" = 0 := by decide
example : (paginateOffers (List.replicate 23 {}) 3 10).1.length = 3 := by decide
example : (paginateOffers (List.replicate 23 {}) 4 10).1 = [] := by decide
example : (paginateOffers (List.replicate 23 {}) 1 10).2 = 3 := by decide
example : (paginateOffers [] 1 10).2 = 0 := by decide

/-! ## Claim C8: token cache refresh policy -/

/-- C8: getToken() returns the cached token exactly when now + 5 minutes <
expiresAt, leaving the cache unchanged; otherwise it performs the
client-credentials exchange and replaces the single cache entry with the new
token and expiry now + expires_in (in ms); hence 4 minutes of remaining life
triggers a refresh while 6 minutes remaining reuses the cached token. -/
theorem C8_token_cache :
    (∀ (c : TokenCacheEntry) (now : Int) (fresh : TokenResponse),
      now + 300000 < c.expiresAt →
      getAccessToken (some c) now fresh = (c.token, some c))
    ∧ (∀ (c : TokenCacheEntry) (now : Int) (fresh : TokenResponse),
      ¬ now + 300000 < c.expiresAt →
      getAccessToken (some c) now fresh =
        (fresh.accessToken, some ⟨fresh.accessToken, now + fresh.expiresIn * 1000⟩))
    ∧ (∀ (now : Int) (fresh : TokenResponse),
      getAccessToken none now fresh =
        (fresh.accessToken, some ⟨fresh.accessToken, now + fresh.expiresIn * 1000⟩))
    ∧ (∀ (tok : String) (now : Int) (fresh : TokenResponse),
      (getAccessToken (some ⟨tok, now + 240000⟩) now fresh).1 = fresh.accessToken)
    ∧ (∀ (tok : String) (now : Int) (fresh : TokenResponse),
      (getAccessToken (some ⟨tok, now + 360000⟩) now fresh).1 = tok) := by
  have hsome : ∀ (c : TokenCacheEntry) (now : Int) (fresh : TokenResponse),
      getAccessToken (some c) now fresh =
        if now + 300000 < c.expiresAt then (c.token, some c)
        else (fresh.accessToken, some ⟨fresh.accessToken, now + fresh.expiresIn * 1000⟩) :=
    fun _ _ _ => rfl
  refine ⟨?_, ?_, ?_, ?_, ?_⟩
  · intro c now fresh h
    rw [hsome, if_pos h]
  · intro c now fresh h
    rw [hsome, if_neg h]
  · intro now fresh
    rfl
  · intro tok now fresh
    rw [hsome, if_neg (show ¬ now + 300000 < now + 240000 by omega)]
  · intro tok now fresh
    rw [hsome, if_pos (show now + 300000 < now + 360000 by omega)]

/-- Witness for C8 at a concrete cache state and clock. -/
theorem C8_token_cache_witness :
    ((0 : Int) + 300000 < 400000 ∧
      getAccessToken (some ⟨"tok", 400000⟩) 0 ⟨"new", 1799⟩ = ("tok", some ⟨"tok", 400000⟩))
    ∧ (¬ (0 : Int) + 300000 < 200000 ∧
      getAccessToken (some ⟨"tok", 200000⟩) 0 ⟨"new", 1799⟩ =
        ("new", some ⟨"new", 0 + 1799 * 1000⟩)) :=
  ⟨⟨by decide, C8_token_cache.1 ⟨"tok", 400000⟩ 0 ⟨"new", 1799⟩ (by decide)⟩,
   ⟨by decide, C8_token_cache.2.1 ⟨"tok", 200000⟩ 0 ⟨"new", 1799⟩ (by decide)⟩⟩

/-! ## Claim C9: backoff schedule -/

/-- C9: the retry delay follows the exponential schedule with base 400 ms,
doubling per attempt, plus 0-149 ms of jitter, capped at 5000 ms; a numeric
Retry-After header of s seconds produces s * 1000 ms clamped to
[500 ms, 5000 ms], so Retry-After 2 yields a delay of at least 2000 ms and
at most 5000 ms (here exactly 2000 ms). -/
theorem C9_backoff :
    (∀ (a j s : Nat),
      computeBackoffMs a (some s) j = min 5000 (max 500 (s * 1000)) ∧
      500 ≤ computeBackoffMs a (some s) j ∧ computeBackoffMs a (some s) j ≤ 5000)
    ∧ (∀ (a j : Nat),
      2000 ≤ computeBackoffMs a (some 2) j ∧ computeBackoffMs a (some 2) j ≤ 5000)
    ∧ (∀ (a j : Nat), j ≤ 149 →
      computeBackoffMs a none j = min 5000 (400 * 2 ^ a + j) ∧
      computeBackoffMs a none j ≤ 5000 ∧
      min 5000 (400 * 2 ^ a) ≤ computeBackoffMs a none j ∧
      computeBackoffMs a none j ≤ min 5000 (400 * 2 ^ a) + 149)
    ∧ (∀ a : Nat, 400 * 2 ^ (a + 1) ≤ 5000 →
      computeBackoffMs (a + 1) none 0 = 2 * computeBackoffMs a none 0) := by
  have hsome : ∀ (a s j : Nat),
      computeBackoffMs a (some s) j = min 5000 (max 500 (s * 1000)) := fun _ _ _ => rfl
  have hnone : ∀ (a j : Nat),
      computeBackoffMs a none j = min 5000 (400 * 2 ^ a + j) := fun _ _ => rfl
  refine ⟨?_, ?_, ?_, ?_⟩
  · intro a j s
    rw [hsome]
    omega
  · intro a j
    rw [hsome]
    refine ⟨by omega, by omega⟩
  · intro a j hj
    rw [hnone]
    refine ⟨rfl, by omega, by omega, by omega⟩
  · intro a h
    rw [hnone, hnone]
    rw [pow_succ] at h ⊢
    generalize 2 ^ a = B at h ⊢
    omega

/-- Witness for C9 at attempt 1, jitter 37 and a Retry-After of 2 seconds. -/
theorem C9_backoff_witness :
    ((37 : Nat) ≤ 149 ∧ computeBackoffMs 1 none 37 = min 5000 (400 * 2 ^ 1 + 37))
    ∧ (2000 ≤ computeBackoffMs 0 (some 2) 37 ∧ computeBackoffMs 0 (some 2) 37 ≤ 5000) :=
  ⟨⟨by decide, (C9_backoff.2.2.1 1 37 (by decide)).1⟩, C9_backoff.2.1 0 37⟩

/-! ## Claim C2: pagination -/

/-- C2, counterexample to the claim as stated: the claim asserts totalPages
has a minimum of 1 even when the filtered count is 0, but the code computes
Math.ceil(0 / 10) = 0 with no floor, so 0 offers with pageSize 10 yield
totalPages 0. -/
theorem C2_totalPages_counterexample :
    ¬ 1 ≤ (paginateOffers ([] : List FlightOffer) 1 10).2 := by
  decide

/-- C2 as amended: totalPages = ceil(count / pageSize) with no minimum (a
count of 0 yields totalPages 0); the page is the slice
[(page-1)*pageSize, page*pageSize); an out-of-range page yields an empty
page rather than an error; with 23 offers and pageSize 10, totalPages = 3,
page 3 has 3 offers and page 4 is empty. -/
theorem C2_pagination :
    (∀ (offers : List FlightOffer) (page limit : Nat), 1 ≤ limit → 1 ≤ page →
      (offers.length ≤ (paginateOffers offers page limit).2 * limit ∧
        (paginateOffers offers page limit).2 * limit < offers.length + limit) ∧
      (offers.length = 0 → (paginateOffers offers page limit).2 = 0) ∧
      (paginateOffers offers page limit).1.length =
        min limit (offers.length - (page - 1) * limit) ∧
      (∀ k, ((paginateOffers offers page limit).1)[k]? =
        if k < limit then offers[(page - 1) * limit + k]? else none) ∧
      (offers.length ≤ (page - 1) * limit → (paginateOffers offers page limit).1 = []))
    ∧ (∀ offers : List FlightOffer, offers.length = 23 →
      (paginateOffers offers 1 10).2 = 3 ∧
      (paginateOffers offers 3 10).1.length = 3 ∧
      (paginateOffers offers 4 10).1 = []) := by
  have hpg : ∀ (offers : List FlightOffer) (page limit : Nat),
      paginateOffers offers page limit =
        ((offers.drop ((page - 1) * limit)).take limit,
          (offers.length + limit - 1) / limit) := fun _ _ _ => rfl
  constructor
  · intro offers page limit hl _hp
    rw [hpg]
    dsimp only
    refine ⟨?_, ?_, ?_, ?_, ?_⟩
    · have h2 := Nat.div_add_mod' (offers.length + limit - 1) limit
      have h3 : (offers.length + limit - 1) % limit < limit := Nat.mod_lt _ hl
      constructor <;> omega
    · intro h0
      have h1 : offers.length + limit - 1 < limit := by omega
      simp [Nat.div_eq_of_lt h1]
    · simp [List.length_take, List.length_drop, Nat.min_def]
    · intro k
      rw [List.getElem?_take]
      split
      · rw [List.getElem?_drop]
      · rfl
    · intro h
      rw [List.drop_eq_nil_of_le h, List.take_nil]
  · intro offers h23
    refine ⟨?_, ?_, ?_⟩
    · rw [hpg, h23]
    · rw [hpg]
      dsimp only
      simp [List.length_take, List.length_drop, h23]
    · rw [hpg]
      dsimp only
      rw [List.drop_eq_nil_of_le (by omega), List.take_nil]

/-- Witness for C2 at a concrete list of 23 offers with pageSize 10. -/
theorem C2_pagination_witness :
    ((List.replicate 23 ({} : FlightOffer)).length = 23 ∧
      (paginateOffers (List.replicate 23 ({} : FlightOffer)) 1 10).2 = 3 ∧
      (paginateOffers (List.replicate 23 ({} : FlightOffer)) 3 10).1.length = 3 ∧
      (paginateOffers (List.replicate 23 ({} : FlightOffer)) 4 10).1 = [])
    ∧ (1 ≤ 10 ∧ 1 ≤ 4 ∧
      (paginateOffers (List.replicate 23 ({} : FlightOffer)) 4 10).1 = []) :=
  ⟨⟨by decide, C2_pagination.2 (List.replicate 23 {}) (by decide)⟩,
   ⟨by decide, by decide,
    (C2_pagination.1 (List.replicate 23 {}) 4 10 (by decide) (by decide)).2.2.2.2
      (by decide)⟩⟩

/-! ## Claim C6: stops filter -/

/-- C6: the stops filter keeps an offer only if every itinerary satisfies the
requested bucket (segment count - 1 equal to 0 / equal to 1 / at least 2),
the filter string any applies no filtering, and an offer whose itineraries
have segment counts [1, 2] is excluded by the nonstop and 1-stop buckets but
included by any. -/
theorem C6_stops_filter :
    (∀ (offers : List FlightOffer) (offer : FlightOffer),
      offer ∈ filterByStops offers "nonstop" ↔
        offer ∈ offers ∧ ∀ it ∈ offer.itineraries, (it.segments.length : Int) - 1 = 0)
    ∧ (∀ (offers : List FlightOffer) (offer : FlightOffer),
      offer ∈ filterByStops offers "1-stop" ↔
        offer ∈ offers ∧ ∀ it ∈ offer.itineraries, (it.segments.length : Int) - 1 = 1)
    ∧ (∀ (offers : List FlightOffer) (offer : FlightOffer),
      offer ∈ filterByStops offers "2+-stops" ↔
        offer ∈ offers ∧ ∀ it ∈ offer.itineraries, 2 ≤ (it.segments.length : Int) - 1)
    ∧ (∀ offers : List FlightOffer, filterByStops offers "any" = offers)
    ∧ (∀ (offer : FlightOffer) (it1 it2 : Itinerary),
      offer.itineraries = [it1, it2] →
      it1.segments.length = 1 → it2.segments.length = 2 →
      filterByStops [offer] "nonstop" = [] ∧
      filterByStops [offer] "1-stop" = [] ∧
      filterByStops [offer] "any" = [offer]) := by
  have hns : ∀ it : Itinerary,
      stopsMatch "nonstop" it = (((it.segments.length : Int) - 1) == 0) := fun _ => rfl
  have h1s : ∀ it : Itinerary,
      stopsMatch "1-stop" it = (((it.segments.length : Int) - 1) == 1) := fun _ => rfl
  have h2s : ∀ it : Itinerary,
      stopsMatch "2+-stops" it = decide (2 ≤ (it.segments.length : Int) - 1) := fun _ => rfl
  have hany : ∀ it : Itinerary, stopsMatch "any" it = true := fun _ => rfl
  refine ⟨?_, ?_, ?_, ?_, ?_⟩
  · intro offers offer
    simp [filterByStops, List.mem_filter, List.all_eq_true, hns]
  · intro offers offer
    simp [filterByStops, List.mem_filter, List.all_eq_true, h1s]
  · intro offers offer
    simp [filterByStops, List.mem_filter, List.all_eq_true, h2s]
  · intro offers
    refine List.filter_eq_self.mpr ?_
    intro o _
    rw [List.all_eq_true]
    intro it _
    exact hany it
  · intro offer it1 it2 hit hl1 hl2
    have hfalse1 : offer.itineraries.all (stopsMatch "nonstop") = false := by
      rw [hit]
      simp [List.all_cons, hns, h1s, hl1, hl2]
    have hfalse2 : offer.itineraries.all (stopsMatch "1-stop") = false := by
      rw [hit]
      simp [List.all_cons, h1s, hl1, hl2]
    have htrue : offer.itineraries.all (stopsMatch "any") = true := by
      rw [hit]
      simp [List.all_cons, hany]
    refine ⟨?_, ?_, ?_⟩ <;>
      simp [filterByStops, List.filter_cons, hfalse1, hfalse2, htrue]

/-- Witness for C6 at a concrete offer with segment counts [1, 2]. -/
theorem C6_stops_filter_witness :
    (({ itineraries := [{ segments := [{}] }, { segments := [{}, {}] }] } :
        FlightOffer).itineraries =
      [{ segments := [{}] }, { segments := [{}, {}] }] ∧
      ({ segments := [({} : Segment)] } : Itinerary).segments.length = 1 ∧
      ({ segments := [({} : Segment), {}] } : Itinerary).segments.length = 2) ∧
    (filterByStops [{ itineraries := [{ segments := [{}] }, { segments := [{}, {}] }] }]
        "nonstop" = [] ∧
      filterByStops [{ itineraries := [{ segments := [{}] }, { segments := [{}, {}] }] }]
        "1-stop" = [] ∧
      filterByStops [{ itineraries := [{ segments := [{}] }, { segments := [{}, {}] }] }]
        "any" = [{ itineraries := [{ segments := [{}] }, { segments := [{}, {}] }] }]) :=
  ⟨⟨rfl, rfl, rfl⟩,
    C6_stops_filter.2.2.2.2 _ _ _ rfl rfl rfl⟩

/-! ## Claim C7: sort keys -/

/-- C7: sorting by cheapest orders offers by ascending numeric total price
(prices [500, 200, 800] come out [200, 500, 800]); fastest orders by the
ascending sum over all itineraries of the minutes parsed from the PT#H#M
token (absent components count 0); earliest orders by the ascending departure
timestamp of the first segment of the first itinerary; each sort returns a
permutation of its input. -/
theorem C7_sort_offers :
    (∀ offers : List FlightOffer,
      (sortOffers offers "cheapest").Perm offers ∧
      List.Sorted (fun a b => a.price.total ≤ b.price.total) (sortOffers offers "cheapest"))
    ∧ (∀ offers : List FlightOffer,
      (sortOffers offers "fastest").Perm offers ∧
      List.Sorted (fun a b => getDuration a ≤ getDuration b) (sortOffers offers "fastest"))
    ∧ (∀ offers : List FlightOffer,
      (sortOffers offers "earliest").Perm offers ∧
      List.Sorted (fun a b => firstDepartureAt a ≤ firstDepartureAt b)
        (sortOffers offers "earliest"))
    ∧ (∀ o1 o2 o3 : FlightOffer,
      o1.price.total = 500 → o2.price.total = 200 → o3.price.total = 800 →
      (sortOffers [o1, o2, o3] "cheapest").map (fun o => o.price.total) =
        [200, 500, 800]) := by
  have hch : ∀ offers : List FlightOffer, sortOffers offers "cheapest" =
      List.insertionSort (fun a b => a.price.total ≤ b.price.total) offers := fun _ => rfl
  have hfa : ∀ offers : List FlightOffer, sortOffers offers "fastest" =
      List.insertionSort (fun a b => getDuration a ≤ getDuration b) offers := fun _ => rfl
  have hea : ∀ offers : List FlightOffer, sortOffers offers "earliest" =
      List.insertionSort (fun a b => firstDepartureAt a ≤ firstDepartureAt b) offers :=
    fun _ => rfl
  refine ⟨?_, ?_, ?_, ?_⟩
  · intro offers
    rw [hch]
    haveI : IsTotal FlightOffer (fun a b => a.price.total ≤ b.price.total) :=
      ⟨fun a b => le_total _ _⟩
    haveI : IsTrans FlightOffer (fun a b => a.price.total ≤ b.price.total) :=
      ⟨fun _ _ _ hab hbc => le_trans hab hbc⟩
    exact ⟨List.perm_insertionSort _ offers, List.sorted_insertionSort _ offers⟩
  · intro offers
    rw [hfa]
    haveI : IsTotal FlightOffer (fun a b => getDuration a ≤ getDuration b) :=
      ⟨fun a b => le_total _ _⟩
    haveI : IsTrans FlightOffer (fun a b => getDuration a ≤ getDuration b) :=
      ⟨fun _ _ _ hab hbc => le_trans hab hbc⟩
    exact ⟨List.perm_insertionSort _ offers, List.sorted_insertionSort _ offers⟩
  · intro offers
    rw [hea]
    haveI : IsTotal FlightOffer (fun a b => firstDepartureAt a ≤ firstDepartureAt b) :=
      ⟨fun a b => le_total _ _⟩
    haveI : IsTrans FlightOffer (fun a b => firstDepartureAt a ≤ firstDepartureAt b) :=
      ⟨fun _ _ _ hab hbc => le_trans hab hbc⟩
    exact ⟨List.perm_insertionSort _ offers, List.sorted_insertionSort _ offers⟩
  · intro o1 o2 o3 h1 h2 h3
    rw [hch]
    norm_num [List.insertionSort, List.orderedInsert, h1, h2, h3]

/-- Witness for C7 at three concrete offers priced 500, 200, 800. -/
theorem C7_sort_offers_witness :
    (({ price := { total := 500 } } : FlightOffer).price.total = 500 ∧
      ({ price := { total := 200 } } : FlightOffer).price.total = 200 ∧
      ({ price := { total := 800 } } : FlightOffer).price.total = 800) ∧
    (sortOffers
        [{ price := { total := 500 } }, { price := { total := 200 } },
          { price := { total := 800 } }] "cheapest").map (fun o => o.price.total) =
      [200, 500, 800] :=
  ⟨⟨rfl, rfl, rfl⟩, C7_sort_offers.2.2.2 _ _ _ rfl rfl rfl⟩

/-! ## Claim C4: traveler ID assignment -/

/-- The property claimed of the traveler list for passenger counts (a, c, i):
the list is the adults block (ids "1".."a"), then the children block, then
the infants block, each infant k carrying associatedAdultId
toString (k % a + 1); the ids across the whole list are the dense sequential
integer strings starting at "1"; and every infant association is one of the
adult ids. -/
def travelerAssignmentSpec (a c i : Nat) : Prop :=
  (buildTravelers ⟨a, c, i⟩ =
    ((List.range a).map fun j =>
      ({ id := toString (j + 1), travelerType := "ADULT" } : Traveler))
    ++ ((List.range c).map fun j =>
      ({ id := toString (a + j + 1), travelerType := "CHILD" } : Traveler))
    ++ ((List.range i).map fun k =>
      ({ id := toString (a + c + k + 1), travelerType := "HELD_INFANT",
         associatedAdultId := some (toString (k % a + 1)) } : Traveler)))
  ∧ ((buildTravelers ⟨a, c, i⟩).map (fun t => t.id) =
    (List.range (a + c + i)).map (fun j => toString (j + 1)))
  ∧ (∀ k, k < i → toString (k % a + 1) ∈ adultIdList a)

/-- C4: for adults >= 1, build() assigns traveler IDs densely as sequential
integer strings starting at "1", adults first, then children, then infants;
every infant is associated round-robin to adult ID toString (k % a + 1),
which is one of the adult IDs. -/
theorem C4_traveler_ids :
    ∀ (a c i : Nat), 1 ≤ a → travelerAssignmentSpec a c i := by
  intro a c i ha
  have hlen : (adultIdList a).length = a := by
    simp [adultIdList]
  have hclosed : buildTravelers ⟨a, c, i⟩ =
      ((List.range a).map fun j =>
        ({ id := toString (j + 1), travelerType := "ADULT" } : Traveler))
      ++ ((List.range c).map fun j =>
        ({ id := toString (a + j + 1), travelerType := "CHILD" } : Traveler))
      ++ ((List.range i).map fun k =>
        ({ id := toString (a + c + k + 1), travelerType := "HELD_INFANT",
           associatedAdultId := some (toString (k % a + 1)) } : Traveler)) := by
    unfold buildTravelers
    congr 1
    apply List.map_congr_left
    intro k _hk
    have hmod : k % a < a := Nat.mod_lt _ ha
    rw [hlen]
    simp [adultIdList, List.getElem?_map, List.getElem?_range, hmod]
  refine ⟨hclosed, ?_, ?_⟩
  · rw [hclosed]
    rw [show a + c + i = (a + c) + i from rfl, List.range_add, List.range_add]
    simp [List.map_append, List.map_map, Function.comp_def]
  · intro k _hk
    have hmod : k % a < a := Nat.mod_lt _ ha
    simp only [adultIdList, List.mem_map, List.mem_range]
    exact ⟨k % a, hmod, rfl⟩

/-- Witness for C4 at 2 adults, 1 child, 3 infants. -/
theorem C4_traveler_ids_witness : 1 ≤ 2 ∧ travelerAssignmentSpec 2 1 3 :=
  ⟨by decide, C4_traveler_ids 2 1 3 (by decide)⟩

/-! ## Claim C5: one-way and return originDestinations -/

/-- C5: a One-way spec with all fields present yields exactly one
originDestinations entry with ID "1"; a Return spec yields the outbound
entry (ID "1") and the swapped inbound entry (ID "2"); and in all cases the
single cabin restriction lists all originDestination IDs with coverage
MOST_SEGMENTS.  For already-normalized fields (upper-case codes, 10-character
dates) the entries are literally \x7bO, D, d1\x7d and \x7bD, O, d2\x7d. -/
theorem C5_origin_destinations :
    (∀ (p : FlightSearchParams) (o d : Location) (dd : String),
      p.tripType = "one-way" → p.origin = some o → p.destination = some d →
      p.departureDate = some dd →
      (buildFlightOffersSearchRequest p).originDestinations =
        [{ id := "1", originLocationCode := jsToUpper o.iataCode,
           destinationLocationCode := jsToUpper d.iataCode,
           departureDate := jsSlice0 dd 10 }])
    ∧ (∀ (p : FlightSearchParams) (o d : Location) (dd rd : String),
      p.tripType = "return" → p.origin = some o → p.destination = some d →
      p.departureDate = some dd → p.returnDate = some rd →
      (buildFlightOffersSearchRequest p).originDestinations =
        [{ id := "1", originLocationCode := jsToUpper o.iataCode,
           destinationLocationCode := jsToUpper d.iataCode,
           departureDate := jsSlice0 dd 10 },
         { id := "2", originLocationCode := jsToUpper d.iataCode,
           destinationLocationCode := jsToUpper o.iataCode,
           departureDate := jsSlice0 rd 10 }])
    ∧ (∀ p : FlightSearchParams,
      (buildFlightOffersSearchRequest p).cabinRestrictions =
        [{ cabin := p.travelClass, coverage := "MOST_SEGMENTS",
           originDestinationIds :=
             (buildFlightOffersSearchRequest p).originDestinations.map
               (fun od => od.id) }])
    ∧ (∀ (p : FlightSearchParams) (o d : Location) (dd rd : String),
      p.tripType = "return" → p.origin = some o → p.destination = some d →
      p.departureDate = some dd → p.returnDate = some rd →
      jsToUpper o.iataCode = o.iataCode → jsToUpper d.iataCode = d.iataCode →
      jsSlice0 dd 10 = dd → jsSlice0 rd 10 = rd →
      (buildFlightOffersSearchRequest p).originDestinations =
        [⟨"1", o.iataCode, d.iataCode, dd⟩, ⟨"2", d.iataCode, o.iataCode, rd⟩]) := by
  have hproj : ∀ p : FlightSearchParams,
      (buildFlightOffersSearchRequest p).originDestinations =
        buildOriginDestinations p := fun _ => rfl
  have hcab : ∀ p : FlightSearchParams,
      (buildFlightOffersSearchRequest p).cabinRestrictions =
        [{ cabin := p.travelClass, coverage := "MOST_SEGMENTS",
           originDestinationIds := (buildOriginDestinations p).map (fun od => od.id) }] :=
    fun _ => rfl
  refine ⟨?_, ?_, ?_, ?_⟩
  · intro p o d dd ht ho hd hdd
    rw [hproj]
    simp [buildOriginDestinations, ht, ho, hd, hdd]
  · intro p o d dd rd ht ho hd hdd hrd
    rw [hproj]
    simp [buildOriginDestinations, ht, ho, hd, hdd, hrd]
  · intro p
    rw [hcab, hproj]
  · intro p o d dd rd ht ho hd hdd hrd huo hud hsd hsr
    rw [hproj]
    simp [buildOriginDestinations, ht, ho, hd, hdd, hrd, huo, hud, hsd, hsr]

/-- Witness for C5 at a concrete Return spec LOS to LHR. -/
theorem C5_origin_destinations_witness :
    (({ tripType := "return", origin := some { iataCode := "LOS" },
        destination := some { iataCode := "LHR" },
        departureDate := some "2026-12-01", returnDate := some "2026-12-20",
        passengers := ⟨1, 0, 0⟩, travelClass := "ECONOMY" } :
          FlightSearchParams).tripType = "return") ∧
    (buildFlightOffersSearchRequest
      { tripType := "return", origin := some { iataCode := "LOS" },
        destination := some { iataCode := "LHR" },
        departureDate := some "2026-12-01", returnDate := some "2026-12-20",
        passengers := ⟨1, 0, 0⟩, travelClass := "ECONOMY" }).originDestinations =
      [⟨"1", jsToUpper "LOS", jsToUpper "LHR", jsSlice0 "2026-12-01" 10⟩,
       ⟨"2", jsToUpper "LHR", jsToUpper "LOS", jsSlice0 "2026-12-20" 10⟩] :=
  ⟨rfl,
    C5_origin_destinations.2.1
      { tripType := "return", origin := some { iataCode := "LOS" },
        destination := some { iataCode := "LHR" },
        departureDate := some "2026-12-01", returnDate := some "2026-12-20",
        passengers := ⟨1, 0, 0⟩, travelClass := "ECONOMY" }
      { iataCode := "LOS" } { iataCode := "LHR" } "2026-12-01" "2026-12-20"
      rfl rfl rfl rfl rfl⟩

/-! ## Claim C10: the builder is total and silently drops bad input -/

/-- Auxiliary: the filterMap over completeSegment keeps exactly the segments
whose three fields are all present. -/
theorem length_filterMap_completeSegment (l : List TripSegment) :
    (l.filterMap completeSegment).length =
      (l.filter (fun s => (completeSegment s).isSome)).length := by
  induction l with
  | nil => rfl
  | cons s rest ih =>
    cases h : completeSegment s <;>
      simp [List.filterMap_cons, List.filter_cons, h, ih]

/-- Auxiliary: a segment missing origin, destination or departureDate fails
the truthiness filter. -/
theorem completeSegment_eq_none (s : TripSegment)
    (h : s.origin = none ∨ s.destination = none ∨ s.departureDate = none) :
    completeSegment s = none := by
  rcases s with ⟨o, d, dd⟩
  cases o <;> cases d <;> cases dd <;> simp_all [completeSegment]

/-- C10: buildFlightOffersSearchRequest is total: every input yields a full
request (travelers and sources always built); a one-way or return spec with
a missing required field yields an empty originDestinations list, as does a
multi-trip spec without a segments list or an unknown trip type; and
multi-trip segments missing origin, destination or departureDate are
silently dropped (the remaining complete segments are kept, re-numbered from
"1") rather than reported. -/
theorem C10_builder_total :
    (∀ p : FlightSearchParams,
      (buildFlightOffersSearchRequest p).travelers = buildTravelers p.passengers ∧
      (buildFlightOffersSearchRequest p).sources = ["GDS"])
    ∧ (∀ p : FlightSearchParams, p.tripType = "one-way" →
      p.origin = none ∨ p.destination = none ∨ p.departureDate = none →
      (buildFlightOffersSearchRequest p).originDestinations = [])
    ∧ (∀ p : FlightSearchParams, p.tripType = "return" →
      p.origin = none ∨ p.destination = none ∨ p.departureDate = none ∨
        p.returnDate = none →
      (buildFlightOffersSearchRequest p).originDestinations = [])
    ∧ (∀ p : FlightSearchParams, p.tripType = "multi-trip" → p.segments = none →
      (buildFlightOffersSearchRequest p).originDestinations = [])
    ∧ (∀ p : FlightSearchParams, p.tripType ≠ "multi-trip" →
      p.tripType ≠ "one-way" → p.tripType ≠ "return" →
      (buildFlightOffersSearchRequest p).originDestinations = [])
    ∧ (∀ (p : FlightSearchParams) (segs : List TripSegment),
      p.tripType = "multi-trip" → p.segments = some segs →
      (buildFlightOffersSearchRequest p).originDestinations.length =
        (segs.filter (fun s => (completeSegment s).isSome)).length ∧
      ∀ s ∈ segs,
        s.origin = none ∨ s.destination = none ∨ s.departureDate = none →
        completeSegment s = none)
    ∧ (∀ (p : FlightSearchParams) (s1 s2 : TripSegment) (o d : Location) (dd : String),
      p.tripType = "multi-trip" → p.segments = some [s1, s2] →
      s1.origin = some o → s1.destination = some d → s1.departureDate = some dd →
      s2.departureDate = none →
      (buildFlightOffersSearchRequest p).originDestinations =
        [⟨"1", jsToUpper o.iataCode, jsToUpper d.iataCode, jsSlice0 dd 10⟩]) := by
  have hproj : ∀ p : FlightSearchParams,
      (buildFlightOffersSearchRequest p).originDestinations =
        buildOriginDestinations p := fun _ => rfl
  refine ⟨?_, ?_, ?_, ?_, ?_, ?_, ?_⟩
  · intro p
    exact ⟨rfl, rfl⟩
  · intro p ht h
    rw [hproj]
    rcases h with h | h | h <;>
      simp [buildOriginDestinations, ht, h]
  · intro p ht h
    rw [hproj]
    rcases h with h | h | h | h <;>
      simp [buildOriginDestinations, ht, h]
  · intro p ht h
    rw [hproj]
    simp [buildOriginDestinations, ht, h]
  · intro p h1 h2 h3
    rw [hproj]
    simp [buildOriginDestinations, h1, h2, h3]
  · intro p segs ht hs
    constructor
    · rw [hproj]
      simp [buildOriginDestinations, ht, hs, List.enum_length,
        length_filterMap_completeSegment]
    · intro s _hmem h
      exact completeSegment_eq_none s h
  · intro p s1 s2 o d dd ht hs h1 h2 h3 h4
    have hc1 : completeSegment s1 = some (o, d, dd) := by
      unfold completeSegment
      rw [h1, h2, h3]
    have hc2 : completeSegment s2 = none :=
      completeSegment_eq_none s2 (Or.inr (Or.inr h4))
    rw [hproj]
    simp [buildOriginDestinations, ht, hs, List.filterMap_cons, hc1, hc2,
      List.enum, List.enumFrom]
    rfl

/-- Witness for C10 at a concrete multi-trip spec whose second segment lacks
a departure date. -/
theorem C10_builder_total_witness :
    (buildFlightOffersSearchRequest
      { tripType := "multi-trip",
        segments := some
          [⟨some { iataCode := "LOS" }, some { iataCode := "LHR" }, some "2026-12-01"⟩,
           ⟨some { iataCode := "LHR" }, some { iataCode := "CDG" }, none⟩],
        passengers := ⟨1, 0, 0⟩, travelClass := "ECONOMY" }).originDestinations =
      [⟨"1", jsToUpper "LOS", jsToUpper "LHR", jsSlice0 "2026-12-01" 10⟩] :=
  C10_builder_total.2.2.2.2.2.2
    { tripType := "multi-trip",
      segments := some
        [⟨some { iataCode := "LOS" }, some { iataCode := "LHR" }, some "2026-12-01"⟩,
         ⟨some { iataCode := "LHR" }, some { iataCode := "CDG" }, none⟩],
      passengers := ⟨1, 0, 0⟩, travelClass := "ECONOMY" }
    ⟨some { iataCode := "LOS" }, some { iataCode := "LHR" }, some "2026-12-01"⟩
    ⟨some { iataCode := "LHR" }, some { iataCode := "CDG" }, none⟩
    { iataCode := "LOS" } { iataCode := "LHR" } "2026-12-01" rfl rfl rfl rfl rfl rfl

/-! ## Claim C3: infant-count validation -/

/-- C3, counterexample to the claim as stated: the claim asserts a spec whose
infant count exceeds what the adults can carry is rejected with a validation
error before any network call; but a one-way spec with 1 adult and 4 infants
passes validation (isOk, so the flow proceeds to the search call) and the
builder associates all four infants to the single adult "1". -/
theorem C3_infants_counterexample :
    (validateGetFlightOffers
      { tripType := "one-way", origin := some "LOS", destination := some "LHR",
        departureDate := some "2026-12-01", adults := 1, infants := 4 }).isOk = true
    ∧ 1 < 4
    ∧ buildTravelers ⟨1, 0, 4⟩ =
      [{ id := "1", travelerType := "ADULT" },
       { id := "2", travelerType := "HELD_INFANT", associatedAdultId := some "1" },
       { id := "3", travelerType := "HELD_INFANT", associatedAdultId := some "1" },
       { id := "4", travelerType := "HELD_INFANT", associatedAdultId := some "1" },
       { id := "5", travelerType := "HELD_INFANT", associatedAdultId := some "1" }] :=
  ⟨by decide, by decide, by decide⟩

/-- C3 as amended: the tool performs no infant-count validation at all -
whether validation succeeds is independent of the infant count, and a
well-formed one-way spec with any passenger counts (in particular more
infants than adults) passes validation unchanged and proceeds to the search
call, infants being associated to adults round-robin by the builder. -/
theorem C3_no_infant_validation :
    (∀ (p : GetFlightOffersParams) (i j : Nat),
      (validateGetFlightOffers { p with infants := i }).isOk =
        (validateGetFlightOffers { p with infants := j }).isOk)
    ∧ (∀ (o d dd : String) (a c i : Nat),
      isValidIata o = true → isValidIata d = true → isValidYMD dd = true →
      validateGetFlightOffers
        { tripType := "one-way", origin := some o, destination := some d,
          departureDate := some dd, adults := a, children := c, infants := i } =
        .ok { tripType := "one-way", origin := some { iataCode := jsToUpper o },
              destination := some { iataCode := jsToUpper d },
              departureDate := some dd, passengers := ⟨a, c, i⟩,
              travelClass := "ECONOMY", currency := some "NGN",
              maxOffers := some 50 }) := by
  have hcore : ∀ (p : GetFlightOffersParams) (i : Nat),
      validateCore { p with infants := i } = validateCore p := fun _ _ => rfl
  have hmapOk : ∀ {α β : Type} (f : α → β) (e : Except String α),
      (e.map f).isOk = e.isOk := by
    intro α β f e
    cases e <;> rfl
  constructor
  · intro p i j
    simp only [validateGetFlightOffers]
    rw [hmapOk, hmapOk, hcore p i, hcore p j]
  · intro o d dd a c i ho hd hdd
    simp [validateGetFlightOffers, validateCore, parseDate, ho, hd, hdd, Except.map]

/-- Witness for C3 at 1 adult, 4 infants, LOS to LHR. -/
theorem C3_no_infant_validation_witness :
    (isValidIata "LOS" = true ∧ isValidIata "LHR" = true ∧
      isValidYMD "2026-12-01" = true) ∧
    validateGetFlightOffers
      { tripType := "one-way", origin := some "LOS", destination := some "LHR",
        departureDate := some "2026-12-01", adults := 1, children := 0, infants := 4 } =
      .ok { tripType := "one-way", origin := some { iataCode := jsToUpper "LOS" },
            destination := some { iataCode := jsToUpper "LHR" },
            departureDate := some "2026-12-01", passengers := ⟨1, 0, 4⟩,
            travelClass := "ECONOMY", currency := some "NGN", maxOffers := some 50 } :=
  ⟨⟨by decide, by decide, by decide⟩,
    C3_no_infant_validation.2 "LOS" "LHR" "2026-12-01" 1 0 4
      (by decide) (by decide) (by decide)⟩

/-! ## Claim C1: retry-client control flow -/

/-- A retriable status is never a 2xx. -/
theorem retriable_respOk_false (s : Nat) (h : isRetriableStatus s = true) :
    respOk s = false := by
  simp only [isRetriableStatus, decide_eq_true_eq] at h
  simp only [respOk, decide_eq_false_iff_not]
  omega

/-- A retriable status is never 401 or 403. -/
theorem retriable_auth_false (s : Nat) (h : isRetriableStatus s = true) :
    isAuthError s = false := by
  simp only [isRetriableStatus, decide_eq_true_eq] at h
  simp only [isAuthError, decide_eq_false_iff_not]
  omega

/-- When the first attempt of the loop yields a response that is 2xx, an auth
error, or non-retriable, the loop returns that response at once, whatever
fuel remains. -/
theorem amadeusFetchGo_first_resp (outcomes : Nat → FetchOutcome)
    (fuel attempt s : Nat) (ho : outcomes attempt = .resp s)
    (h : respOk s = true ∨ isAuthError s = true ∨ isRetriableStatus s = false) :
    amadeusFetchGo outcomes fuel attempt = .returned s := by
  cases fuel with
  | zero => simp [amadeusFetchGo, ho]
  | succ f =>
    by_cases hok : respOk s = true
    · simp [amadeusFetchGo, ho, hok]
    · rw [Bool.not_eq_true] at hok
      by_cases hauth : isAuthError s = true
      · simp [amadeusFetchGo, ho, hok, hauth]
      · rw [Bool.not_eq_true] at hauth
        have hr : isRetriableStatus s = false := by
          rcases h with h | h | h
          · rw [h] at hok; cases hok
          · rw [h] at hauth; cases hauth
          · exact h
        simp [amadeusFetchGo, ho, hok, hauth, hr]

/-- When an attempt makes the loop try again (a network error or a retriable
response) with fuel left, the loop steps to the next attempt. -/
theorem amadeusFetchGo_step (outcomes : Nat → FetchOutcome) (f attempt : Nat)
    (hr : retriableOutcome (outcomes attempt) = true) :
    amadeusFetchGo outcomes (f + 1) attempt = amadeusFetchGo outcomes f (attempt + 1) := by
  cases ho : outcomes attempt with
  | netErr => simp [amadeusFetchGo, ho]
  | resp s =>
    rw [ho] at hr
    simp only [retriableOutcome] at hr
    have hok := retriable_respOk_false s hr
    have hauth := retriable_auth_false s hr
    simp [amadeusFetchGo, ho, hok, hauth, hr]

/-- With fuel left, an attempt that does not make the loop try again
(a 2xx, auth, or non-retriable response) cannot end in a throw. -/
theorem amadeusFetchGo_succ_ne_thrown (outcomes : Nat → FetchOutcome)
    (f attempt : Nat) (h : retriableOutcome (outcomes attempt) = false) :
    amadeusFetchGo outcomes (f + 1) attempt ≠ .thrown := by
  cases ho : outcomes attempt with
  | netErr => rw [ho] at h; simp [retriableOutcome] at h
  | resp s =>
    rw [ho] at h
    simp only [retriableOutcome] at h
    rw [amadeusFetchGo_first_resp outcomes (f + 1) attempt s ho (Or.inr (Or.inr h))]
    intro hc
    cases hc

/-- The loop throws exactly when every attempt it consumes retries (network
error or retriable response) and the attempt that exhausts the fuel is a
network error. -/
theorem amadeusFetchGo_thrown_iff (outcomes : Nat → FetchOutcome) :
    ∀ (fuel attempt : Nat),
      amadeusFetchGo outcomes fuel attempt = .thrown ↔
        ((∀ j, j < fuel → retriableOutcome (outcomes (attempt + j)) = true) ∧
          outcomes (attempt + fuel) = .netErr) := by
  intro fuel
  induction fuel with
  | zero =>
    intro attempt
    constructor
    · intro h
      refine ⟨fun j hj => absurd hj (by omega), ?_⟩
      rw [Nat.add_zero]
      cases ho : outcomes attempt with
      | netErr => rfl
      | resp s => simp [amadeusFetchGo, ho] at h
    · rintro ⟨_, hlast⟩
      rw [Nat.add_zero] at hlast
      simp [amadeusFetchGo, hlast]
  | succ f ih =>
    intro attempt
    by_cases hr : retriableOutcome (outcomes attempt) = true
    · rw [amadeusFetchGo_step outcomes f attempt hr, ih (attempt + 1)]
      constructor
      · rintro ⟨hall, hlast⟩
        refine ⟨?_, ?_⟩
        · intro j hj
          cases j with
          | zero => rw [Nat.add_zero]; exact hr
          | succ j' =>
            have hidx : attempt + (j' + 1) = (attempt + 1) + j' := by omega
            rw [hidx]
            exact hall j' (by omega)
        · have hidx : attempt + (f + 1) = (attempt + 1) + f := by omega
          rw [hidx]
          exact hlast
      · rintro ⟨hall, hlast⟩
        refine ⟨?_, ?_⟩
        · intro j hj
          have hidx : (attempt + 1) + j = attempt + (j + 1) := by omega
          rw [hidx]
          exact hall (j + 1) (by omega)
        · have hidx : (attempt + 1) + f = attempt + (f + 1) := by omega
          rw [hidx]
          exact hlast
    · rw [Bool.not_eq_true] at hr
      constructor
      · intro h
        exact absurd h (amadeusFetchGo_succ_ne_thrown outcomes f attempt hr)
      · rintro ⟨hall, _⟩
        have h0 := hall 0 (by omega)
        rw [Nat.add_zero, hr] at h0
        cases h0

/-- When every attempt up to the fuel limit yields a retriable response, the
loop runs them all and returns the last response. -/
theorem amadeusFetchGo_all_retriable (outcomes : Nat → FetchOutcome) (st : Nat → Nat) :
    ∀ (fuel attempt : Nat),
      (∀ j, j ≤ fuel → outcomes (attempt + j) = .resp (st (attempt + j)) ∧
        isRetriableStatus (st (attempt + j)) = true) →
      amadeusFetchGo outcomes fuel attempt = .returned (st (attempt + fuel)) := by
  intro fuel
  induction fuel with
  | zero =>
    intro attempt h
    obtain ⟨ho, _⟩ := h 0 (by omega)
    rw [Nat.add_zero] at ho ⊢
    simp [amadeusFetchGo, ho]
  | succ f ih =>
    intro attempt h
    obtain ⟨ho, hrs⟩ := h 0 (by omega)
    rw [Nat.add_zero] at ho hrs
    rw [amadeusFetchGo_step outcomes f attempt (by rw [ho]; simpa [retriableOutcome] using hrs)]
    have hrec := ih (attempt + 1) (fun j hj => by
      have hidx : (attempt + 1) + j = attempt + (j + 1) := by omega
      rw [hidx]
      exact h (j + 1) (by omega))
    have hidx : (attempt + 1) + f = attempt + (f + 1) := by omega
    rw [hidx] at hrec
    exact hrec

/-- C1, counterexample to the claim as stated: the claim asserts the client
throws only when the network call itself fails on all 1 + maxRetries
attempts; but with maxRetries = 3 the outcome sequence 500 response, then
three network errors, throws although the first attempt received an HTTP
response. -/
theorem C1_throw_counterexample :
    ¬ (∀ (maxRetries : Nat) (outcomes : Nat → FetchOutcome),
        amadeusFetch maxRetries outcomes = .thrown →
        ∀ i, i ≤ maxRetries → outcomes i = .netErr) := by
  intro h
  have h0 := h 3 (fun i => if i = 0 then .resp 500 else .netErr) (by decide) 0 (by omega)
  simp at h0

/-- C1 as amended: a 2xx response is returned immediately; a 401/403 response
is returned immediately with no further attempt; any other non-retriable
response (in particular any other 4xx) is returned immediately; a run of
retriable responses (5xx, 408, 429) is retried up to maxRetries and the last
such response is returned as-is rather than thrown; and the client throws
exactly when every attempt before the last retried (network error or
retriable response) and the final, fuel-exhausting attempt is a network
error. -/
theorem C1_retry_client :
    (∀ (maxRetries : Nat) (outcomes : Nat → FetchOutcome) (s : Nat),
      outcomes 0 = .resp s → respOk s = true →
      amadeusFetch maxRetries outcomes = .returned s)
    ∧ (∀ (maxRetries : Nat) (outcomes : Nat → FetchOutcome) (s : Nat),
      outcomes 0 = .resp s → isAuthError s = true →
      amadeusFetch maxRetries outcomes = .returned s)
    ∧ (∀ (maxRetries : Nat) (outcomes : Nat → FetchOutcome) (s : Nat),
      outcomes 0 = .resp s → isRetriableStatus s = false →
      amadeusFetch maxRetries outcomes = .returned s)
    ∧ (∀ (maxRetries : Nat) (outcomes : Nat → FetchOutcome) (st : Nat → Nat),
      (∀ j, j ≤ maxRetries → outcomes j = .resp (st j) ∧
        isRetriableStatus (st j) = true) →
      amadeusFetch maxRetries outcomes = .returned (st maxRetries))
    ∧ (∀ (maxRetries : Nat) (outcomes : Nat → FetchOutcome),
      amadeusFetch maxRetries outcomes = .thrown ↔
        ((∀ j, j < maxRetries → retriableOutcome (outcomes j) = true) ∧
          outcomes maxRetries = .netErr)) := by
  refine ⟨?_, ?_, ?_, ?_, ?_⟩
  · intro maxRetries outcomes s ho hok
    exact amadeusFetchGo_first_resp outcomes maxRetries 0 s ho (Or.inl hok)
  · intro maxRetries outcomes s ho hauth
    exact amadeusFetchGo_first_resp outcomes maxRetries 0 s ho (Or.inr (Or.inl hauth))
  · intro maxRetries outcomes s ho hr
    exact amadeusFetchGo_first_resp outcomes maxRetries 0 s ho (Or.inr (Or.inr hr))
  · intro maxRetries outcomes st h
    have := amadeusFetchGo_all_retriable outcomes st maxRetries 0 (fun j hj => by
      rw [Nat.zero_add]
      exact h j hj)
    rw [Nat.zero_add] at this
    exact this
  · intro maxRetries outcomes
    have := amadeusFetchGo_thrown_iff outcomes maxRetries 0
    simpa [Nat.zero_add] using this

/-- Witness for C1: a 204 is returned at once; a steady 503 exhausts the
retries and is returned; steady network errors throw. -/
theorem C1_retry_client_witness :
    ((fun _ : Nat => FetchOutcome.resp 204) 0 = .resp 204 ∧ respOk 204 = true ∧
      amadeusFetch 3 (fun _ => .resp 204) = .returned 204)
    ∧ ((fun _ : Nat => FetchOutcome.resp 503) 0 = .resp 503 ∧
      amadeusFetch 3 (fun _ => .resp 503) = .returned 503)
    ∧ amadeusFetch 2 (fun _ => .netErr) = .thrown :=
  ⟨⟨rfl, by decide, C1_retry_client.1 3 (fun _ => .resp 204) 204 rfl (by decide)⟩,
   ⟨rfl, C1_retry_client.2.2.2.1 3 (fun _ => .resp 503) (fun _ => 503)
      (fun _ _ => ⟨rfl, (by decide : isRetriableStatus 503 = true)⟩)⟩,
   (C1_retry_client.2.2.2.2 2 (fun _ => .netErr)).mpr ⟨fun _ _ => rfl, rfl⟩⟩

end ChatBot
